import Mathlib

/-!
Verification of the Serverless-guidon repository against its specification.

This file shallowly embeds the parts of the source code the claims talk
about, and proves (or refutes) each claim about the embedded definitions.

Components embedded here:
* `RateLimiterM` — `src/services/user-manager/rate_limiter.py` together with
  the in-memory TTL cache in `src/services/user-manager/cache.py`.
* `CanvasM` — `src/services/canvas-service/canvas_manager.py`
  (`draw_pixel`, `get_pixel_info`).
* `ProxyM` — `src/services/proxy/` (signature verification, the interaction
  fast paths, command→topic routing, and the webhook handler control flow).
* `ProcessorM` — `src/services/processor-base/command_registry.py` and
  `src/services/processor-base/shared/processor_utils.py`.
* `DrawM` — `src/services/processor-draw/handlers/draw_handler.py` (the
  usage-counter slice) and `UserManager.increment_usage`.

Timestamps (Python `time.time()` floats) are modelled as rationals.
-/

namespace RateLimiterM

/-- Python `int(q)` truncates toward zero: floor for nonnegative values and
ceiling for negative ones. -/
def pyInt (q : ℚ) : ℤ := if 0 ≤ q then q.floor else -((-q).floor)

/-- Result dictionary of `RateLimiter.check_rate_limit`:
keys `allowed`, `remaining`, `reset_in`, `max`. -/
structure RLResult where
  allowed : Bool
  remaining : ℤ
  reset_in : ℤ
  max : ℕ
deriving DecidableEq, Repr

/-- State relevant to one `(user_id, command)` key: the Firestore
`rate_limits` document (`none` = document does not exist, otherwise its
`calls` timestamp list) and the process-local cache entry for
`rate_limit:{user_id}:{command}` (value together with its expiry time, as
stored by `SimpleCache`). -/
structure RLState where
  window : Option (List ℚ)
  cacheEntry : Option (RLResult × ℚ)
deriving DecidableEq, Repr

/-- `SimpleCache.get`: returns the value while it has not expired
(`time.time() < expires`); an expired entry is deleted.  Returns the looked-up
value and the entry left in the cache. -/
def cacheGet (e : Option (RLResult × ℚ)) (now : ℚ) :
    Option RLResult × Option (RLResult × ℚ) :=
  match e with
  | none => (none, none)
  | some ve => if now < ve.2 then (some ve.1, some ve) else (none, none)

/-- `RateLimiter.RATE_LIMITS` lookup followed by the premium/default tier
selection: returns `(calls, period)`.  Unrecognised commands fall back to the
`'default'` entry of the table. -/
def rateConfig (command : String) (isPremium : Bool) : ℕ × ℕ :=
  let limits : (ℕ × ℕ) × (ℕ × ℕ) :=
    if command = "draw" then ((10, 60), (30, 60))
    else if command = "snapshot" then ((5, 300), (15, 300))
    else ((30, 60), (60, 60))
  if isPremium then limits.2 else limits.1

/-- Python `min` over a nonempty list (the `[]` case is never reached by
`check_rate_limit`, where the list length is at least `max_calls ≥ 1`). -/
def listMin : List ℚ → ℚ
  | [] => 0
  | t :: ts => ts.foldl min t

/-- `RateLimiter.check_rate_limit` for one `(user_id, command)` key.
Control flow of the source: cache fast path; missing document creates
`{'calls': [current_time]}`; otherwise old calls are pruned with
`call_time > cutoff_time` where `cutoff_time = current_time - period`; a full
window denies without touching the document; otherwise `current_time` is
appended and the pruned list persisted.  Every computed result is cached with
`ttl=5`. -/
def check_rate_limit (command : String) (isPremium : Bool) (now : ℚ)
    (s : RLState) : RLResult × RLState :=
  match cacheGet s.cacheEntry now with
  | (some r, e2) => (r, ⟨s.window, e2⟩)
  | (none, _) =>
    let cfg := rateConfig command isPremium
    let maxCalls := cfg.1
    let period := cfg.2
    match s.window with
    | none =>
      let r : RLResult := ⟨true, (maxCalls : ℤ) - 1, (period : ℤ), maxCalls⟩
      (r, ⟨some [now], some (r, now + 5)⟩)
    | some calls =>
      let cutoff : ℚ := now - (period : ℚ)
      let recent := calls.filter (fun t => decide (cutoff < t))
      if maxCalls ≤ recent.length then
        let oldest := listMin recent
        let r : RLResult := ⟨false, 0, pyInt (oldest + (period : ℚ) - now), maxCalls⟩
        (r, ⟨s.window, some (r, now + 5)⟩)
      else
        let recent2 := recent ++ [now]
        let r : RLResult :=
          ⟨true, (maxCalls : ℤ) - (recent2.length : ℤ), (period : ℤ), maxCalls⟩
        (r, ⟨some recent2, some (r, now + 5)⟩)

/-- `RateLimiter.get_limits_info`: the body is a single `return
self.check_rate_limit(user_id, command, is_premium, correlation_id)`. -/
def get_limits_info (command : String) (isPremium : Bool) (now : ℚ)
    (s : RLState) : RLResult × RLState :=
  check_rate_limit command isPremium now s

end RateLimiterM

namespace CanvasM

/-- `CanvasManager.CANVAS_SIZE`: no `setting.json` ships with the service, so
`load_settings` returns the default `canvas_size` of 48. -/
def CANVAS_SIZE : ℤ := 48

/-- `CanvasManager.DEFAULT_COLOR` (default settings). -/
def DEFAULT_COLOR : String := "#FFFFFF"

/-- Document of the `pixels` collection, keyed by `f"{x}_{y}"`.  The
`timestamp` server field carries no information the claims mention and is
omitted. -/
structure PixelDoc where
  x : ℤ
  y : ℤ
  color : String
  user_id : String
  username : Option String
  previous_color : Option String
  previous_user : Option String
  edit_count : ℕ
deriving DecidableEq, Repr

/-- The `canvas/main` aggregate document (fields touched by `draw_pixel`;
`_initialize_canvas` guarantees it exists).  `unique_contributors` is stored
through a Python `set`, so only its extension is determined. -/
structure CanvasAgg where
  total_pixels : ℤ
  last_update_by : Option String
  last_update_username : Option (Option String)
  unique_contributors : Finset String
deriving DecidableEq

/-- Canvas store state: the `pixels` collection (a map from document id to
document) and the aggregate document. -/
structure CanvasState where
  pixels : String → Option PixelDoc
  canvas : CanvasAgg

/-- `pixel_id = f"{x}_{y}"`. -/
def pixelId (x y : ℤ) : String := toString x ++ "_" ++ toString y

/-- Result dictionary of `CanvasManager.draw_pixel`. -/
inductive DrawRes where
  | err (error : String)
  | ok (x y : ℤ) (color : String) (previous_color : Option String) (changed : Bool)
deriving DecidableEq, Repr

/-- `CanvasManager.draw_pixel`: bounds check, then color format check
(`color.startswith('#') and len(color) == 7`; `startswith('#')` is the check
that the first character is `'#'`), then a merge-write of the pixel
document and of the aggregate.  `total_pixels` is incremented only when the
pixel document did not exist; `last_update_by`/`last_update_username` are
always written; `changed` is `previous_color != color` (where a missing
document gives `previous_color = None`). -/
def draw_pixel (s : CanvasState) (x y : ℤ) (color : String) (user_id : String)
    (username : Option String) : DrawRes × CanvasState :=
  if ¬(0 ≤ x ∧ x < CANVAS_SIZE ∧ 0 ≤ y ∧ y < CANVAS_SIZE) then
    (.err ("Coordinates must be 0-" ++ toString (CANVAS_SIZE - 1)), s)
  else if ¬(color.data.head? = some '#' ∧ color.length = 7) then
    (.err "Color must be in format #RRGGBB", s)
  else
    let pid := pixelId x y
    let prevDoc := s.pixels pid
    let previous_color := prevDoc.map (fun p => p.color)
    let previous_user := prevDoc.map (fun p => p.user_id)
    let newDoc : PixelDoc :=
      ⟨x, y, color, user_id, username, previous_color, previous_user,
        (prevDoc.map (fun p => p.edit_count)).getD 0 + 1⟩
    let pixels2 := fun k => if k = pid then some newDoc else s.pixels k
    let agg2 : CanvasAgg :=
      ⟨(if prevDoc = none then s.canvas.total_pixels + 1 else s.canvas.total_pixels),
        some user_id, some username,
        insert user_id s.canvas.unique_contributors⟩
    (.ok x y color previous_color (decide (previous_color ≠ some color)),
      ⟨pixels2, agg2⟩)

/-- Result of `CanvasManager.get_pixel_info` when it does not return `None`:
either the pixel document's dictionary or the default "Empty" dictionary. -/
inductive PixelInfo where
  | doc (p : PixelDoc)
  | empty (x y : ℤ)
deriving DecidableEq, Repr

/-- The `color` entry of a `get_pixel_info` result (the default dictionary
carries `DEFAULT_COLOR`). -/
def pixelInfoColor : PixelInfo → String
  | .doc p => p.color
  | .empty _ _ => DEFAULT_COLOR

/-- `CanvasManager.get_pixel_info`: `None` out of bounds; the stored document
when it exists; otherwise the default dictionary. -/
def get_pixel_info (s : CanvasState) (x y : ℤ) : Option PixelInfo :=
  if ¬(0 ≤ x ∧ x < CANVAS_SIZE ∧ 0 ≤ y ∧ y < CANVAS_SIZE) then none
  else
    match s.pixels (pixelId x y) with
    | some p => some (.doc p)
    | none => some (.empty x y)

/-- A canvas whose `pixels` collection is empty and whose aggregate is the
`_initialize_canvas` document. -/
def emptyCanvas : CanvasState :=
  ⟨fun _ => none, ⟨0, none, none, ∅⟩⟩

end CanvasM

namespace ProxyM

/-- Outcome of the PyNaCl block in `verify_discord_signature`: the
`verify_key.verify(...)` call either succeeds, raises `BadSignatureError`, or
raises `ValueError` (malformed hex in the signature or key).  The Ed25519
mathematics itself is kept abstract; only the exception discipline matters to
the claims. -/
inductive NaclResult where
  | ok
  | badSignature
  | malformedHex
deriving DecidableEq, Repr

/-- Python truthiness of the `DISCORD_PUBLIC_KEY` setting (`None` and the
empty string are falsy). -/
def keyConfigured : Option String → Bool
  | none => false
  | some k => decide (k.length ≠ 0)

/-- `verify_discord_signature`: returns `False` when no public key is
configured; returns `True` only when the verify call succeeds; any
`BadSignatureError`/`ValueError` is caught and yields `False`. -/
def verify_discord_signature (publicKey : Option String) (nacl : NaclResult) :
    Bool :=
  if keyConfigured publicKey = false then false
  else
    match nacl with
    | .ok => true
    | .badSignature => false
    | .malformedHex => false

/-- The slice of a parsed Discord interaction the proxy control flow reads:
`type`, `data.name`, and the user id extracted by
`get_user_id_from_interaction` (`member.user.id` or `user.id`). -/
structure Interaction where
  type : ℤ
  name : Option String
  user_id : Option String
deriving DecidableEq, Repr

/-- Responses the proxy returns, tagged by which dictionary the source
builds; `typeOnly n` is the bare `{'type': n}` payload (`{'type': 1}` is the
pong ack, `{'type': 5}` the deferred ack). -/
inductive ProxyResp where
  | typeOnly (n : ℤ)
  | errorJson (msg : String)
  | registrationRequired
  | rateLimited
  | accessDenied
  | simpleCmd (command : String)
  | unavailable
deriving DecidableEq, Repr

/-- External services the proxy consults, abstracted as oracles:
`is_user_registered` and the `allowed` verdict of `check_user_allowed`. -/
structure ProxyEnv where
  publicKey : Option String
  isRegistered : String → Bool
  checkAllowed : String → String → Bool

/-- `NO_REGISTRATION_REQUIRED` in `interaction_handler.py`. -/
def NO_REGISTRATION_REQUIRED : List String := ["register", "help", "ping", "hello"]

/-- `handle_simple_command` (Discord flavor): `ping`, `hello` and `help` are
answered immediately, everything else returns `None`. -/
def handle_simple_command (command_name : String) : Option ProxyResp :=
  if command_name = "ping" then some (.simpleCmd "ping")
  else if command_name = "hello" then some (.simpleCmd "hello")
  else if command_name = "help" then some (.simpleCmd "help")
  else none

/-- `process_interaction` (Discord path) in
`src/services/proxy/interaction_handler.py`: ping fast path, then — for
application commands — the registration gate, the rate-limit gate for `draw`
and `snapshot`, and the simple-command fast path.  `none` means "hand the
interaction to Pub/Sub". -/
def process_interaction (env : ProxyEnv) (i : Interaction) :
    Option (ProxyResp × ℕ) :=
  if i.type = 1 then some (.typeOnly 1, 200)
  else if i.type ≠ 2 then none
  else
    match i.name with
    | none => none
    | some command_name =>
      let regGate :=
        match i.user_id with
        | some uid =>
          if command_name ∈ NO_REGISTRATION_REQUIRED then none
          else if env.isRegistered uid then none
          else some ((ProxyResp.registrationRequired, 200))
        | none => none
      match regGate with
      | some out => some out
      | none =>
        let limitGate :=
          match i.user_id with
          | some uid =>
            if command_name = "draw" ∨ command_name = "snapshot" then
              if env.checkAllowed uid command_name then none
              else some ((ProxyResp.rateLimited, 200))
            else none
          | none => none
        match limitGate with
        | some out => some out
        | none =>
          match handle_simple_command command_name with
          | some r => some (r, 200)
          | none => none

/-- What one run of the `discord_interactions` webhook handler did: the HTTP
response, how many Pub/Sub publishes were attempted, and whether
`process_interaction` was reached. -/
structure ProxyRun where
  resp : ProxyResp
  status : ℕ
  publishes : ℕ
  processCalled : Bool
deriving DecidableEq, Repr

/-- `discord_interactions` in `src/services/proxy/main.py`: missing signature
headers → 400; failed signature verification → 401 before anything else;
unparsable JSON → 400; then `process_interaction`, whose verdict is returned
directly when present; otherwise the interaction is published to Pub/Sub and
the deferred ack `{'type': 5}` is returned (or the `unavailable` error when
the publish fails). -/
def discord_interactions (env : ProxyEnv) (signature timestamp : Option String)
    (nacl : NaclResult) (body : Option Interaction) (publishOk : Bool) :
    ProxyRun :=
  match signature, timestamp with
  | some _, some _ =>
    if verify_discord_signature env.publicKey nacl = false then
      ⟨.errorJson "Unauthorized", 401, 0, false⟩
    else
      match body with
      | none => ⟨.errorJson "Bad Request - Invalid JSON", 400, 0, false⟩
      | some i =>
        match process_interaction env i with
        | some (r, code) => ⟨r, code, 0, true⟩
        | none =>
          if publishOk then ⟨.typeOnly 5, 200, 1, true⟩
          else ⟨.unavailable, 200, 1, true⟩
  | _, _ => ⟨.errorJson "Bad Request - Missing headers", 400, 0, false⟩

/-- Names bound at module level in `src/services/proxy/config.py`. -/
def proxy_config_names : List String :=
  ["PROJECT_ID", "DISCORD_PUBLIC_KEY", "DISCORD_BOT_TOKEN",
   "DISCORD_APPLICATION_ID", "DISCORD_API_BASE_URL",
   "PUBSUB_TOPIC_DISCORD_INTERACTIONS", "PUBSUB_TOPIC_DISCORD_COMMANDS_BASE",
   "PUBSUB_TOPIC_DISCORD_COMMANDS_ART"]

/-- The `command_topic_map` table in `get_topic_for_command`. -/
def command_topic_map (command_name : String) : Option String :=
  if command_name = "draw" then some "commands-draw"
  else if command_name = "snapshot" then some "commands-snapshot"
  else if command_name = "canvas_state" then some "commands-canvas-state"
  else if command_name = "stats" then some "commands-stats"
  else if command_name = "colors" then some "commands-colors"
  else if command_name = "pixel_info" then some "commands-pixel-info"
  else if command_name = "getpixel" then some "commands-pixel-info"
  else none

/-- `get_topic_for_command` in `src/services/proxy/pubsub_utils.py`.  The
fallback branch returns the module-level name `PUBSUB_TOPIC_COMMANDS_BASE`,
which `pubsub_utils.py` tries to import from `config`; `config.py` binds no
such name (it binds `PUBSUB_TOPIC_DISCORD_COMMANDS_BASE`), so loading the
module raises `ImportError` and the fallback value does not exist — modelled
as `Except.error` on the path that needs it. -/
def get_topic_for_command (command_name : String) : Except String String :=
  match command_topic_map command_name with
  | some t => .ok t
  | none =>
    if proxy_config_names.contains "PUBSUB_TOPIC_COMMANDS_BASE" then
      .ok "discord-commands-base"
    else
      .error "ImportError: cannot import name PUBSUB_TOPIC_COMMANDS_BASE"

end ProxyM

namespace ProcessorM

/-- One embed dictionary as built by `shared/embed_utils.py`. -/
structure PEmbed where
  title : String
  description : String
deriving DecidableEq, Repr

/-- A processor interaction response: `{'type': t, 'data': {'embeds': es,
('flags': 64 when ephemeral)}}`; the pong reply is `⟨1, [], false⟩`. -/
structure PResp where
  type : ℤ
  embeds : List PEmbed
  ephemeral : Bool
deriving DecidableEq, Repr

/-- `create_error_embed(title, description, ephemeral)` from
`shared/embed_utils.py`: an embed titled `f'Error: {title}'` wrapped in a
type-4 response. -/
def create_error_embed (title description : String) (ephemeral : Bool) : PResp :=
  ⟨4, [⟨"Error: " ++ title, description⟩], ephemeral⟩

/-- The slice of the interaction the dispatch reads. -/
structure PInteraction where
  type : ℤ
  name : Option String
deriving DecidableEq, Repr

/-- A registered handler: Python exceptions are modelled as `Except.error`. -/
def PHandler : Type := PInteraction → Except String PResp

/-- `CommandHandler.handle`: unknown command → "Command Not Found" error
embed; a handler that raises is caught and mapped to the "Command Error"
embed; a normal return is passed through. -/
def handle (handlers : String → Option PHandler) (command_name : String)
    (interaction_data : PInteraction) : PResp :=
  match handlers command_name with
  | some h =>
    match h interaction_data with
    | .ok r => r
    | .error _ =>
      create_error_embed "Command Error"
        ("An error occurred while processing `/" ++ command_name ++
          "`. Please try again later.") true
  | none =>
    create_error_embed "Command Not Found"
      ("Command `/" ++ command_name ++ "` is not available in this service.")
      true

/-- The fallback reply built by the outer `except` of `process_interaction`
in `shared/processor_utils.py`. -/
def processingErrorResp : PResp :=
  ⟨4, [⟨"Processing Error",
        "An unexpected error occurred. The service is still running."⟩], false⟩

/-- The reply for an interaction type other than 1 and 2. -/
def unknownTypeResp : PResp :=
  ⟨4, [⟨"Unknown Interaction Type",
        "This interaction type is not supported."⟩], false⟩

/-- `process_interaction` in `shared/processor_utils.py` (reply value only;
the fire-and-forget usage increment does not affect the reply): ping → pong;
type 2 without a command name raises `ValueError`, caught by the outer
`except` which returns the generic processing-error reply; otherwise the
registry dispatch; other types → unknown-type reply. -/
def processor_process_interaction (handlers : String → Option PHandler)
    (i : PInteraction) : PResp :=
  if i.type = 1 then ⟨1, [], false⟩
  else if i.type = 2 then
    match i.name with
    | none => processingErrorResp
    | some command_name => handle handlers command_name i
  else unknownTypeResp

end ProcessorM

namespace DrawM

/-- `UserManager.increment_usage`: bumps `total_draws` only for the `draw`
command (plus cache invalidation and timestamps, which carry no claim
content). -/
def increment_usage (command : String) (total_draws : ℕ) : ℕ :=
  if command = "draw" then total_draws + 1 else total_draws

/-- The reply built by the tail of `handle_draw`. -/
inductive DrawReply where
  | failure (title error : String)
  | success (x y : ℤ) (color : String) (description : String) (total_draws : ℕ)
deriving DecidableEq, Repr

/-- The tail of `handle_draw` in
`src/services/processor-draw/handlers/draw_handler.py`, from the Canvas
Store call's result on: a failed draw yields the "Draw failed" error reply;
on success the usage counter is incremented through
`user_client.increment_usage` **only when `color_changed`**, and the rich
reply is built (its total-draws field showing the incremented value, or the
unchanged value fetched via `get_user_stats` when the pixel already had the
color).  Returns the reply together with the caller's `total_draws` counter
after the call. -/
def handle_draw_after_canvas (canvas_result : CanvasM.DrawRes)
    (total_draws : ℕ) : DrawReply × ℕ :=
  match canvas_result with
  | .err e => (.failure "Draw failed" e, total_draws)
  | .ok x y color _ changed =>
    let total2 := if changed then increment_usage "draw" total_draws else total_draws
    (.success x y color
      (if changed then "Pixel successfully placed on the shared canvas!"
       else "Pixel already had this color. No changes made.") total2,
      total2)

end DrawM

namespace RateLimiterM

theorem foldl_min_mem (a : ℚ) (ts : List ℚ) : ts.foldl min a ∈ a :: ts := by
  induction ts generalizing a with
  | nil => simp
  | cons t ts ih =>
    have h1 := ih (min a t)
    simp only [List.foldl_cons]
    rcases min_choice a t with h | h <;> rw [h] at h1 <;>
      rcases List.mem_cons.1 h1 with h2 | h2 <;> rw [h] <;> simp [h2]

theorem listMin_mem (l : List ℚ) (h : l ≠ []) : listMin l ∈ l := by
  cases l with
  | nil => exact absurd rfl h
  | cons t ts => exact foldl_min_mem t ts

theorem pyInt_eq_floor (q : ℚ) (h : 0 ≤ q) : pyInt q = ⌊q⌋ := by
  rw [pyInt, if_pos h]; rfl

theorem rateConfig_pos (command : String) (isPremium : Bool) :
    0 < (rateConfig command isPremium).1 := by
  unfold rateConfig
  by_cases h1 : command = "draw" <;> by_cases h2 : command = "snapshot" <;>
    cases isPremium <;> simp [h1, h2]

/-- C1 (amended): on a cache miss with stored timestamp list `L`, the tier
ceiling is selected by command name and premium flag (default tier for
unrecognised commands, all folded into `rateConfig`); `L` is pruned to the
timestamps **strictly greater than `now - window`** (no upper cutoff at
`now`); if the pruned count reaches `max_calls` the call is denied with
`remaining = 0` and `reset_in = ⌊oldest retained + window - now⌋`, and the
stored list is left untouched; otherwise `now` is appended, the
pruned-and-appended list is persisted, and the call is allowed with
`remaining = max_calls` minus the new count.  (The claim's closed filter
interval `[now - window, now]` is what
`c1_filter_boundary_counterexample` refutes.) -/
theorem check_stored_spec (command : String) (isPremium : Bool) (now : ℚ)
    (s : RLState) (L : List ℚ)
    (hmiss : (cacheGet s.cacheEntry now).1 = none)
    (hwin : s.window = some L) :
    let maxCalls := (rateConfig command isPremium).1
    let period := (rateConfig command isPremium).2
    let recent := L.filter (fun t => decide (now - (period : ℚ) < t))
    let out := check_rate_limit command isPremium now s
    (maxCalls ≤ recent.length →
      out.1.allowed = false ∧ out.1.remaining = 0 ∧
      out.1.reset_in = ⌊listMin recent + (period : ℚ) - now⌋ ∧
      out.1.max = maxCalls ∧ out.2.window = some L) ∧
    (recent.length < maxCalls →
      out.1.allowed = true ∧
      out.1.remaining = (maxCalls : ℤ) - ((recent.length : ℤ) + 1) ∧
      out.1.max = maxCalls ∧
      out.2.window = some (recent ++ [now])) := by
  intro maxCalls period recent out
  have hout : out = check_rate_limit command isPremium now s := rfl
  rw [check_rate_limit] at hout
  rcases hc : cacheGet s.cacheEntry now with ⟨o, e2⟩
  rw [hc] at hout
  cases o with
  | some r => rw [hc] at hmiss; exact absurd hmiss (by simp)
  | none =>
    rw [hwin] at hout
    simp only at hout
    by_cases hle : maxCalls ≤ recent.length
    · rw [if_pos hle] at hout
      refine ⟨fun _ => ?_, fun hlt => absurd hle (not_le.2 hlt)⟩
      have hne : recent ≠ [] := by
        intro h0
        rw [h0] at hle
        simp at hle
        exact absurd (hle ▸ rateConfig_pos command isPremium) (by omega)
      have hmem := listMin_mem recent hne
      have hcut : now - (period : ℚ) < listMin recent := by
        have := List.of_mem_filter hmem
        exact of_decide_eq_true this
      have hpos : (0 : ℚ) ≤ listMin recent + (period : ℚ) - now := by linarith
      rw [hout]
      exact ⟨rfl, rfl, pyInt_eq_floor _ hpos, rfl, rfl⟩
    · rw [if_neg hle] at hout
      refine ⟨fun h => absurd h hle, fun _ => ?_⟩
      rw [hout]
      refine ⟨rfl, ?_, rfl, rfl⟩
      simp

unseal Rat.add Rat.sub in
/-- Witness for `check_stored_spec`: user `draw` check at time 60 with
stored window `[10, 20]`, empty cache, non-premium. -/
theorem check_stored_spec_witness :
    (cacheGet (RLState.mk (some [10, 20]) none).cacheEntry 60).1 = none ∧
    (RLState.mk (some [(10 : ℚ), 20]) none).window = some [10, 20] ∧
    (check_rate_limit "draw" false 60 ⟨some [10, 20], none⟩).1.allowed = true := by
  refine ⟨rfl, rfl, ?_⟩
  exact ((check_stored_spec "draw" false 60 ⟨some [10, 20], none⟩ [10, 20] rfl rfl).2
    (by decide)).1

unseal Rat.add Rat.sub in
/-- C1 counterexample: the claim prunes with the closed interval
`[now - window, now]`; the code prunes with `call_time > now - window`.  With
window `[0, 70, 1, …, 8]` at `now = 60` (command `draw`, period 60) the code
persists `[70, 1, …, 8, 60]`: the timestamp `0 = now - window` is dropped
even though the claim's interval retains it, and the future timestamp `70` is
retained even though the claim's interval drops it. -/
theorem c1_filter_boundary_counterexample :
    (check_rate_limit "draw" false 60
        ⟨some [0, 70, 1, 2, 3, 4, 5, 6, 7, 8], none⟩).2.window
      = some [70, 1, 2, 3, 4, 5, 6, 7, 8, 60] ∧
    (([0, 70, 1, 2, 3, 4, 5, 6, 7, 8] : List ℚ).filter
        (fun t => decide (60 - (60 : ℚ) ≤ t ∧ t ≤ 60))) ++ [60]
      = [0, 1, 2, 3, 4, 5, 6, 7, 8, 60] ∧
    ([70, 1, 2, 3, 4, 5, 6, 7, 8, 60] : List ℚ)
      ≠ [0, 1, 2, 3, 4, 5, 6, 7, 8, 60] := by
  decide

unseal Rat.add Rat.sub in
/-- C8: `get_limits_info` is not read-only — it delegates to
`check_rate_limit`, which records a call.  At time 100 with stored window
`[99]` and an empty cache, the "info" query grows the persisted window to
`[99, 100]`. -/
theorem get_limits_info_records_call :
    (get_limits_info "draw" false 100 ⟨some [99], none⟩).2.window
      = some [99, 100] ∧
    (get_limits_info "draw" false 100 ⟨some [99], none⟩).2.window
      ≠ (⟨some [99], none⟩ : RLState).window := by
  decide

theorem cacheEntry_after_miss (command : String) (isPremium : Bool) (now : ℚ)
    (s : RLState) (hmiss : (cacheGet s.cacheEntry now).1 = none) :
    (check_rate_limit command isPremium now s).2.cacheEntry
      = some ((check_rate_limit command isPremium now s).1, now + 5) := by
  unfold check_rate_limit
  rcases hc : cacheGet s.cacheEntry now with ⟨o, e2⟩
  cases o with
  | some r => rw [hc] at hmiss; simp at hmiss
  | none =>
    dsimp only
    cases hw : s.window with
    | none => rfl
    | some calls => dsimp only; split <;> rfl

/-- C10 (amended): when a check at `t1` **misses the cache** and computes a
result, that result is memoized until `t1 + 5`; any later check of the same
`(user, command)` key at `t2 < t1 + 5` returns exactly the first check's
result, leaves the state (including the persisted timestamp window)
unchanged, and is independent of the stored window (so cached admissions are
never appended to the window).  The claim's stronger pairwise version — any
two checks within 5 seconds of each other agree — fails when the first check
was itself a cache hit on an older entry; see
`c10_ttl_pair_counterexample`. -/
theorem cached_check_spec (command : String) (p1 p2 : Bool) (t1 t2 : ℚ)
    (s : RLState) (hmiss : (cacheGet s.cacheEntry t1).1 = none)
    (h5 : t2 < t1 + 5) :
    check_rate_limit command p2 t2 (check_rate_limit command p1 t1 s).2
      = ((check_rate_limit command p1 t1 s).1,
          (check_rate_limit command p1 t1 s).2) ∧
    ∀ w : Option (List ℚ),
      check_rate_limit command p2 t2
          ⟨w, (check_rate_limit command p1 t1 s).2.cacheEntry⟩
        = ((check_rate_limit command p1 t1 s).1,
            ⟨w, (check_rate_limit command p1 t1 s).2.cacheEntry⟩) := by
  have hce := cacheEntry_after_miss command p1 t1 s hmiss
  have key : ∀ w : Option (List ℚ),
      check_rate_limit command p2 t2
          ⟨w, (check_rate_limit command p1 t1 s).2.cacheEntry⟩
        = ((check_rate_limit command p1 t1 s).1,
            ⟨w, (check_rate_limit command p1 t1 s).2.cacheEntry⟩) := by
    intro w
    conv_lhs => rw [check_rate_limit]
    rw [hce]
    simp only [cacheGet]
    rw [if_pos h5]
  refine ⟨?_, key⟩
  exact key (check_rate_limit command p1 t1 s).2.window

unseal Rat.add Rat.sub in
/-- Witness for `cached_check_spec`: a miss at `t1 = 10` followed by a check
at `t2 = 12 < 15`. -/
theorem cached_check_spec_witness :
    (cacheGet (RLState.mk (some [3]) none).cacheEntry 10).1 = none ∧
    ((12 : ℚ) < 10 + 5) ∧
    check_rate_limit "draw" false 12
        (check_rate_limit "draw" false 10 ⟨some [3], none⟩).2
      = ((check_rate_limit "draw" false 10 ⟨some [3], none⟩).1,
          (check_rate_limit "draw" false 10 ⟨some [3], none⟩).2) :=
  ⟨rfl, by decide,
    (cached_check_spec "draw" false false 10 12 ⟨some [3], none⟩ rfl
      (by decide)).1⟩

set_option maxRecDepth 4000 in
unseal Rat.add Rat.sub in
/-- C10 counterexample: checks at 96 (miss, caches until 101), 100 (hit,
allowed) and 103.  The checks at 100 and 103 are 3 < 5 seconds apart, yet the
one at 103 misses the expired entry, recomputes against the now-full window
and is denied — it does not return the 100-second check's result. -/
theorem c10_ttl_pair_counterexample :
    ((103 : ℚ) - 100 < 5) ∧
    (check_rate_limit "draw" false 100
        (check_rate_limit "draw" false 96
          ⟨some [50, 51, 52, 53, 54, 55, 56, 57, 58], none⟩).2).1.allowed
      = true ∧
    (check_rate_limit "draw" false 103
        (check_rate_limit "draw" false 100
          (check_rate_limit "draw" false 96
            ⟨some [50, 51, 52, 53, 54, 55, 56, 57, 58], none⟩).2).2).1
      ≠ (check_rate_limit "draw" false 100
          (check_rate_limit "draw" false 96
            ⟨some [50, 51, 52, 53, 54, 55, 56, 57, 58], none⟩).2).1 := by
  decide

end RateLimiterM

namespace CanvasM

/-- C2: for every in-range coordinate pair and valid color, `draw_pixel`
succeeds and a subsequent `get_pixel_info` at the same coordinates reports
that color; for every out-of-range pair (hence in particular `-1` and
`CANVAS_SIZE`), `draw_pixel` returns the bounds error and leaves the state
untouched — no clamping. -/
theorem draw_read_roundtrip (s : CanvasState) (x y : ℤ) (color user_id : String)
    (username : Option String) :
    ((0 ≤ x ∧ x < CANVAS_SIZE ∧ 0 ≤ y ∧ y < CANVAS_SIZE) →
      (color.data.head? = some '#' ∧ color.length = 7) →
      (∃ prev ch, (draw_pixel s x y color user_id username).1
        = .ok x y color prev ch) ∧
      ((get_pixel_info (draw_pixel s x y color user_id username).2 x y).map
          pixelInfoColor = some color)) ∧
    (¬(0 ≤ x ∧ x < CANVAS_SIZE ∧ 0 ≤ y ∧ y < CANVAS_SIZE) →
      (draw_pixel s x y color user_id username)
        = (.err ("Coordinates must be 0-" ++ toString (CANVAS_SIZE - 1)), s)) := by
  constructor
  · intro hb hc
    rw [draw_pixel, if_neg (not_not_intro hb), if_neg (not_not_intro hc)]
    refine ⟨⟨_, _, rfl⟩, ?_⟩
    rw [get_pixel_info, if_neg (not_not_intro hb)]
    simp [pixelInfoColor]
  · intro hb
    rw [draw_pixel, if_pos hb]

/-- Witness for `draw_read_roundtrip`: draw at (5, 5) with `#FF0000` on the
fresh canvas, then attempts at x = −1 and x = 48. -/
theorem draw_read_roundtrip_witness :
    ((get_pixel_info (draw_pixel emptyCanvas 5 5 "#FF0000" "u" none).2 5 5).map
        pixelInfoColor = some "#FF0000") ∧
    (draw_pixel emptyCanvas (-1) 0 "#FF0000" "u" none
      = (.err ("Coordinates must be 0-" ++ toString (CANVAS_SIZE - 1)),
          emptyCanvas)) ∧
    (draw_pixel emptyCanvas 48 5 "#FF0000" "u" none
      = (.err ("Coordinates must be 0-" ++ toString (CANVAS_SIZE - 1)),
          emptyCanvas)) :=
  ⟨((draw_read_roundtrip emptyCanvas 5 5 "#FF0000" "u" none).1 (by decide)
      (by decide)).2,
    (draw_read_roundtrip emptyCanvas (-1) 0 "#FF0000" "u" none).2 (by decide),
    (draw_read_roundtrip emptyCanvas 48 5 "#FF0000" "u" none).2 (by decide)⟩

/-- C3: drawing the same valid color twice at the same in-range coordinates
returns `changed = false` on the second call and leaves `total_pixels`
unchanged; in general a second write to an existing pixel never bumps
`total_pixels` (it is incremented only when the pixel document did not
exist), while `last_update_by` is always rewritten. -/
theorem draw_idempotent (s : CanvasState) (x y : ℤ) (color user_id1 user_id2 : String)
    (username1 username2 : Option String)
    (hb : 0 ≤ x ∧ x < CANVAS_SIZE ∧ 0 ≤ y ∧ y < CANVAS_SIZE)
    (hc : color.data.head? = some '#' ∧ color.length = 7) :
    ((draw_pixel (draw_pixel s x y color user_id1 username1).2
        x y color user_id2 username2).1 = .ok x y color (some color) false) ∧
    ((draw_pixel (draw_pixel s x y color user_id1 username1).2
        x y color user_id2 username2).2.canvas.total_pixels
      = (draw_pixel s x y color user_id1 username1).2.canvas.total_pixels) ∧
    (∀ s0 : CanvasState, s0.pixels (pixelId x y) ≠ none →
      (draw_pixel s0 x y color user_id2 username2).2.canvas.total_pixels
        = s0.canvas.total_pixels) ∧
    ((draw_pixel (draw_pixel s x y color user_id1 username1).2
        x y color user_id2 username2).2.canvas.last_update_by = some user_id2) := by
  have hmain : ∀ s0 : CanvasState,
      draw_pixel s0 x y color user_id2 username2
        = (let pid := pixelId x y
           let prevDoc := s0.pixels pid
           let previous_color := prevDoc.map (fun p => p.color)
           let previous_user := prevDoc.map (fun p => p.user_id)
           let newDoc : PixelDoc :=
             ⟨x, y, color, user_id2, username2, previous_color, previous_user,
               (prevDoc.map (fun p => p.edit_count)).getD 0 + 1⟩
           (.ok x y color previous_color (decide (previous_color ≠ some color)),
             ⟨fun k => if k = pid then some newDoc else s0.pixels k,
               ⟨(if prevDoc = none then s0.canvas.total_pixels + 1
                  else s0.canvas.total_pixels),
                 some user_id2, some username2,
                 insert user_id2 s0.canvas.unique_contributors⟩⟩)) := by
    intro s0
    rw [draw_pixel, if_neg (not_not_intro hb), if_neg (not_not_intro hc)]
  have hfst : ((draw_pixel s x y color user_id1 username1).2.pixels
      (pixelId x y)).map (fun p => p.color) = some color := by
    rw [draw_pixel, if_neg (not_not_intro hb), if_neg (not_not_intro hc)]
    simp
  refine ⟨?_, ?_, ?_, ?_⟩
  · rw [hmain]
    simp only [Option.map]
    rcases hp : (draw_pixel s x y color user_id1 username1).2.pixels (pixelId x y)
      with _ | p
    · rw [hp] at hfst; simp at hfst
    · rw [hp] at hfst
      simp at hfst
      simp [hp, hfst]
  · rw [hmain]
    rcases hp : (draw_pixel s x y color user_id1 username1).2.pixels (pixelId x y)
      with _ | p
    · rw [hp] at hfst; simp at hfst
    · simp [hp]
  · intro s0 h0
    rw [hmain]
    simp [h0]
  · rw [hmain]

/-- Witness for `draw_idempotent`: two identical draws of `#00FF00` at (5, 7)
on the fresh canvas. -/
theorem draw_idempotent_witness :
    (0 ≤ (5 : ℤ) ∧ (5 : ℤ) < CANVAS_SIZE ∧ 0 ≤ (7 : ℤ) ∧ (7 : ℤ) < CANVAS_SIZE) ∧
    ("#00FF00".data.head? = some '#' ∧ "#00FF00".length = 7) ∧
    ((draw_pixel (draw_pixel emptyCanvas 5 7 "#00FF00" "u1" none).2
        5 7 "#00FF00" "u2" none).1 = .ok 5 7 "#00FF00" (some "#00FF00") false) :=
  ⟨by decide, by decide,
    (draw_idempotent emptyCanvas 5 7 "#00FF00" "u1" "u2" none none
      (by decide) (by decide)).1⟩

end CanvasM

namespace ProxyM

/-- C4: for every verified inbound Discord interaction of type 1 (ping), the
proxy's webhook handler synchronously returns the pong payload `{'type': 1}`
with status 200, attempts no Pub/Sub publish, and this holds for every
environment and publish behavior. -/
theorem ping_fast_path (env : ProxyEnv) (sig ts : String) (nacl : NaclResult)
    (nm uid : Option String) (publishOk : Bool)
    (hv : verify_discord_signature env.publicKey nacl = true) :
    discord_interactions env (some sig) (some ts) nacl (some ⟨1, nm, uid⟩)
        publishOk
      = ⟨.typeOnly 1, 200, 0, true⟩ := by
  unfold discord_interactions
  simp [hv, process_interaction]

/-- An environment with a configured verification key and permissive
oracles, used to instantiate the proxy theorems. -/
def pingEnv : ProxyEnv := ⟨some "k", fun _ => true, fun _ _ => true⟩

/-- Witness for `ping_fast_path`: a verified type-1 interaction. -/
theorem ping_fast_path_witness :
    (verify_discord_signature pingEnv.publicKey .ok = true) ∧
    discord_interactions pingEnv (some "sig") (some "ts") .ok
        (some ⟨1, none, none⟩) true
      = ⟨.typeOnly 1, 200, 0, true⟩ :=
  ⟨by decide, ping_fast_path pingEnv "sig" "ts" .ok none none true (by decide)⟩

/-- C5: the webhook handler fails closed on signature verification: whenever
no verification key is configured, or the PyNaCl verify attempt raises
(`BadSignatureError` for a mismatch, `ValueError` for malformed hex),
`verify_discord_signature` returns `False` and the handler answers 401
Unauthorized without calling `process_interaction` (no fast path) and without
any Pub/Sub publish. -/
theorem signature_fail_closed (env : ProxyEnv) (sig ts : String)
    (nacl : NaclResult) (body : Option Interaction) (publishOk : Bool)
    (h : keyConfigured env.publicKey = false ∨ nacl ≠ .ok) :
    verify_discord_signature env.publicKey nacl = false ∧
    discord_interactions env (some sig) (some ts) nacl body publishOk
      = ⟨.errorJson "Unauthorized", 401, 0, false⟩ := by
  have hv : verify_discord_signature env.publicKey nacl = false := by
    unfold verify_discord_signature
    rcases h with h | h
    · simp [h]
    · cases nacl with
      | ok => exact absurd rfl h
      | badSignature => simp
      | malformedHex => simp
  refine ⟨hv, ?_⟩
  unfold discord_interactions
  simp [hv]

/-- Witness for `signature_fail_closed`: no key configured and a
malformed-hex signature. -/
theorem signature_fail_closed_witness :
    (keyConfigured (none : Option String) = false
      ∨ NaclResult.malformedHex ≠ NaclResult.ok) ∧
    discord_interactions ⟨none, fun _ => true, fun _ _ => true⟩ (some "s")
        (some "t") .malformedHex (some ⟨1, none, none⟩) true
      = ⟨.errorJson "Unauthorized", 401, 0, false⟩ :=
  ⟨Or.inl (by decide),
    (signature_fail_closed ⟨none, fun _ => true, fun _ _ => true⟩ "s" "t"
      .malformedHex (some ⟨1, none, none⟩) true (Or.inl (by decide))).2⟩

/-- C6: the static table does route `draw`, `snapshot`, `canvas_state`,
`stats`, `colors` and `pixel_info` to their dedicated topics, but the claimed
fallback to the shared base topic cannot happen: the fallback value
`PUBSUB_TOPIC_COMMANDS_BASE` is imported from `config`, which binds no such
name (it binds `PUBSUB_TOPIC_DISCORD_COMMANDS_BASE`), so any command outside
the table — e.g. `register` — hits the missing-name error instead of a
topic. -/
theorem topic_routing_import_bug :
    get_topic_for_command "draw" = .ok "commands-draw" ∧
    get_topic_for_command "snapshot" = .ok "commands-snapshot" ∧
    get_topic_for_command "canvas_state" = .ok "commands-canvas-state" ∧
    get_topic_for_command "stats" = .ok "commands-stats" ∧
    get_topic_for_command "colors" = .ok "commands-colors" ∧
    get_topic_for_command "pixel_info" = .ok "commands-pixel-info" ∧
    proxy_config_names.contains "PUBSUB_TOPIC_COMMANDS_BASE" = false ∧
    get_topic_for_command "register"
      = .error "ImportError: cannot import name PUBSUB_TOPIC_COMMANDS_BASE" :=
  ⟨rfl, rfl, rfl, rfl, rfl, rfl, by decide, rfl⟩

end ProxyM

namespace ProcessorM

/-- C7: processor dispatch always returns a structured reply and never
propagates an exception: an unregistered command name yields the
"Command Not Found" error embed; a handler that raises
(`Except.error`) is caught at the registry boundary and mapped to the
generic "Command Error" embed; `process_interaction` routes type-2
interactions through the registry and converts the `ValueError` for a
missing command name into the generic processing-error reply. -/
theorem dispatch_never_raises (handlers : String → Option PHandler)
    (i : PInteraction) (command_name : String) :
    (handlers command_name = none →
      handle handlers command_name i
        = create_error_embed "Command Not Found"
            ("Command `/" ++ command_name ++ "` is not available in this service.")
            true) ∧
    (∀ h msg, handlers command_name = some h → h i = .error msg →
      handle handlers command_name i
        = create_error_embed "Command Error"
            ("An error occurred while processing `/" ++ command_name ++
              "`. Please try again later.") true) ∧
    (i.type = 2 → i.name = some command_name →
      processor_process_interaction handlers i = handle handlers command_name i) ∧
    (i.type = 2 → i.name = none →
      processor_process_interaction handlers i = processingErrorResp) := by
  refine ⟨?_, ?_, ?_, ?_⟩
  · intro h0
    unfold handle
    rw [h0]
  · intro h msg hh he
    unfold handle
    rw [hh]
    dsimp only
    rw [he]
  · intro ht hn
    unfold processor_process_interaction
    rw [ht, hn]
    simp
  · intro ht hn
    unfold processor_process_interaction
    rw [ht, hn]
    simp

/-- A registry with a single handler `boom` that always raises, used to
instantiate the dispatch theorem. -/
def testHandlers : String → Option PHandler :=
  fun command_name =>
    if command_name = "boom" then some (fun _ => .error "boom") else none

/-- Witness for `dispatch_never_raises`: an unknown command and a raising
handler. -/
theorem dispatch_never_raises_witness :
    (testHandlers "nope" = none) ∧
    (testHandlers "boom" = some (fun _ => Except.error "boom")) ∧
    handle testHandlers "nope" ⟨2, some "nope"⟩
      = create_error_embed "Command Not Found"
          ("Command `/" ++ "nope" ++ "` is not available in this service.") true ∧
    handle testHandlers "boom" ⟨2, some "boom"⟩
      = create_error_embed "Command Error"
          ("An error occurred while processing `/" ++ "boom" ++
            "`. Please try again later.") true :=
  ⟨rfl, rfl,
    (dispatch_never_raises testHandlers ⟨2, some "nope"⟩ "nope").1 rfl,
    (dispatch_never_raises testHandlers ⟨2, some "boom"⟩ "boom").2.1
      (fun _ => Except.error "boom") "boom" rfl rfl⟩

end ProcessorM

namespace DrawM

/-- C9 counterexample: two identical successful draws of `#FF0000` at (5, 5)
starting from the fresh canvas.  The second draw succeeds with
`changed = false`, and the caller's `total_draws` counter stays at 1 after it
— the claim requires it to be incremented on *every* successful draw (2 after
two, …, 10 after ten identical draws). -/
theorem draw_usage_counterexample :
    ((CanvasM.draw_pixel
        (CanvasM.draw_pixel CanvasM.emptyCanvas 5 5 "#FF0000" "u" none).2
        5 5 "#FF0000" "u" none).1
      = CanvasM.DrawRes.ok 5 5 "#FF0000" (some "#FF0000") false) ∧
    ((handle_draw_after_canvas
        (CanvasM.draw_pixel
          (CanvasM.draw_pixel CanvasM.emptyCanvas 5 5 "#FF0000" "u" none).2
          5 5 "#FF0000" "u" none).1
        (handle_draw_after_canvas
          (CanvasM.draw_pixel CanvasM.emptyCanvas 5 5 "#FF0000" "u" none).1
          0).2).2 = 1) ∧
    (1 : ℕ) ≠ 2 := by
  decide

/-- C9 (amended): in the draw processor, the caller's `total_draws` counter
is incremented exactly once on draws for which the Canvas Store reports
success **and** `changed = true` (routed through
`UserManager.increment_usage`, which bumps `total_draws` for the `draw`
command); a successful same-color redraw (`changed = false`) and a failed
draw leave the counter unchanged. -/
theorem draw_usage_increment_spec (res : CanvasM.DrawRes) (total_draws : ℕ) :
    (∀ x y color prev, res = .ok x y color prev true →
      (handle_draw_after_canvas res total_draws).2
          = increment_usage "draw" total_draws ∧
      (handle_draw_after_canvas res total_draws).2 = total_draws + 1) ∧
    (∀ x y color prev, res = .ok x y color prev false →
      (handle_draw_after_canvas res total_draws).2 = total_draws) ∧
    (∀ e, res = .err e →
      (handle_draw_after_canvas res total_draws).2 = total_draws) := by
  refine ⟨?_, ?_, ?_⟩
  · intro x y color prev hres
    subst hres
    exact ⟨rfl, rfl⟩
  · intro x y color prev hres
    subst hres
    rfl
  · intro e hres
    subst hres
    rfl

/-- Witness for `draw_usage_increment_spec`: a changed successful draw bumps
the counter from 3 to 4. -/
theorem draw_usage_increment_spec_witness :
    ((CanvasM.DrawRes.ok 1 2 "#AABBCC" none true)
        = CanvasM.DrawRes.ok 1 2 "#AABBCC" none true) ∧
    (handle_draw_after_canvas (CanvasM.DrawRes.ok 1 2 "#AABBCC" none true) 3).2
      = 3 + 1 :=
  ⟨rfl,
    ((draw_usage_increment_spec (CanvasM.DrawRes.ok 1 2 "#AABBCC" none true) 3).1
      1 2 "#AABBCC" none rfl).2⟩

end DrawM
